import Mathlib

set_option maxRecDepth 40000

/-!
Shallow embedding of the Interactive Estimation System backend
(`backend/app/estimator.py`, `backend/app/graph.py`, `backend/app/utils.py`,
`backend/app/models.py`, `backend/app/config.py`).

Numeric values that the Python code handles as `float` are modelled over `ℚ`
(exact arithmetic); IEEE-754 rounding is not modelled.  Python dictionaries
holding conversation facts are modelled as insertion-ordered association
lists, and Python truthiness is modelled explicitly on a `Value` type.
-/

namespace Estimation

/-- ASCII whitespace, as matched by Python `str.strip`, `str.split` and `\s`. -/
def isSpaceChar (c : Char) : Bool :=
  c = ' ' || c = '\t' || c = '\n' || c = '\r' || c = '\x0b' || c = '\x0c'

/-- Word characters for the regex `\b` boundary (`[A-Za-z0-9_]` on ASCII text). -/
def isWordChar (c : Char) : Bool := c.isAlphanum || c = '_'

/-- ASCII lowercasing of one character, as Python `str.lower` does on ASCII. -/
def asciiLower (c : Char) : Char :=
  if 'A' ≤ c ∧ c ≤ 'Z' then Char.ofNat (c.toNat + 32) else c

/-- Python `str.lower` (ASCII fragment). -/
def pyLower (s : String) : String := String.mk (s.toList.map asciiLower)

/-- Python `str.strip`: drop leading and trailing whitespace. -/
def pyStrip (s : String) : String :=
  String.mk (((s.toList.dropWhile isSpaceChar).reverse.dropWhile isSpaceChar).reverse)

/-- Substring test on character lists (Python `needle in hay` for strings). -/
def subInfix (needle : List Char) : List Char → Bool
  | [] => needle.isEmpty
  | c :: cs => needle.isPrefixOf (c :: cs) || subInfix needle cs

/-- Python `needle in hay` on strings. -/
def pyIn (needle hay : String) : Bool := subInfix needle.toList hay.toList

/-- Python `str.split()` (no argument): split on whitespace runs, dropping empties. -/
def splitWSAux : List Char → List Char → List (List Char)
  | [], acc => if acc.isEmpty then [] else [acc.reverse]
  | c :: cs, acc =>
    if isSpaceChar c then
      if acc.isEmpty then splitWSAux cs [] else acc.reverse :: splitWSAux cs []
    else splitWSAux cs (c :: acc)

/-- Python `str.split()` on a string. -/
def pySplitWS (s : String) : List String :=
  (splitWSAux s.toList []).map String.mk

/-- A Python value as stored in the `extracted_info` facts dictionary. -/
inductive Value where
  | vStr : String → Value
  | vNum : ℚ → Value
  | vBool : Bool → Value
  | vNone : Value
deriving DecidableEq

/-- Python truthiness of a fact value (`bool(v)`). -/
def pyTruthy : Value → Bool
  | .vStr s => !s.isEmpty
  | .vNum q => decide (q ≠ 0)
  | .vBool b => b
  | .vNone => false

/-- An insertion-ordered Python dictionary with string keys. -/
abbrev Dict := List (String × Value)

/-- Dictionary lookup (`d.get(k)` / `k in d`). -/
def dget (d : Dict) (k : String) : Option Value :=
  (d.find? (fun p => p.1 == k)).map Prod.snd

/-- Dictionary update `d[k] = v`: replace in place, else append (dict order). -/
def dset : Dict → String → Value → Dict
  | [], k, v => [(k, v)]
  | (k1, v1) :: rest, k, v =>
    if k1 == k then (k1, v) :: rest else (k1, v1) :: dset rest k v

/-- `d.get(k, dflt)`. -/
def dgetD (d : Dict) (k : String) (dflt : Value) : Value := (dget d k).getD dflt

/-- Python `float(v)` on a fact value.  Numbers map to themselves, booleans to
0/1, strings of decimal digits to the denoted number; any other string raises
`ValueError` in Python, modelled as `none`. -/
def pyFloatV : Value → Option ℚ
  | .vNum q => some q
  | .vBool b => some (if b then 1 else 0)
  | .vStr s =>
    if s.toList ≠ [] ∧ s.toList.all Char.isDigit then
      some ((s.toList.foldl (fun n c => 10 * n + (c.toNat - 48)) 0 : ℕ) : ℚ)
    else none
  | .vNone => none

/-- The string content of a fact value; Python `.lower()` on a non-string
raises `AttributeError`, modelled as `none`. -/
def asStrV : Value → Option String
  | .vStr s => some s
  | _ => none

/-- Rate-table lookup `tbl.get(k, dflt)` for the multiplier dictionaries. -/
def tableGet (tbl : List (String × ℚ)) (k : String) (dflt : ℚ) : ℚ :=
  ((tbl.find? (fun p => p.1 == k)).map Prod.snd).getD dflt

/-- The per-service configuration dictionary (`config.py` service entry). -/
structure ServiceConfig where
  required_info : List String
  base_rate_per_sqft : ℚ
  materials : List (String × ℚ)
  regions : List (String × ℚ)
  timeline_multipliers : List (String × ℚ)
  permit_fee : ℚ
  price_range_percentage : ℚ
deriving DecidableEq

/-- `models.EstimateResult` (also the shape of its `dict()` rendering). -/
structure EstimateResult where
  service_type : String
  square_footage : ℚ
  location : String
  material_type : String
  timeline : String
  base_cost : ℚ
  material_cost : ℚ
  region_adjustment : ℚ
  timeline_adjustment : ℚ
  permit_fee : ℚ
  total_estimate : ℚ
  price_range_low : ℚ
  price_range_high : ℚ
  image_references : List String
deriving DecidableEq

/-- The check performed by the required-fields loop at the top of
`calculate_estimate` (and by `get_missing_info` per field):
present in the dictionary and truthy. -/
def fieldPresent (info : Dict) (f : String) : Bool :=
  match dget info f with
  | some v => pyTruthy v
  | none => false

/-- `estimator.calculate_estimate`.  Returns `none` where the Python function
returns `(None, False)` (missing/falsy required field); also `none` if one of
the `float(...)`/`.lower()` conversions would raise. -/
def calculate_estimate (service_type : String) (service_config : ServiceConfig)
    (extracted_info : Dict) (image_references : List String) : Option EstimateResult :=
  if service_config.required_info.all (fieldPresent extracted_info) then
    match pyFloatV (dgetD extracted_info "square_footage" (.vNum 0)),
          asStrV (dgetD extracted_info "location" (.vStr "")),
          asStrV (dgetD extracted_info "material_type" (.vStr "")),
          asStrV (dgetD extracted_info "timeline" (.vStr "")) with
    | some square_footage, some loc0, some mat0, some tl0 =>
      let location := pyLower loc0
      let material_type := pyLower mat0
      let timeline := pyLower tl0
      let material_multiplier := tableGet service_config.materials material_type 1
      let region_multiplier := tableGet service_config.regions location 1
      let timeline_multiplier := tableGet service_config.timeline_multipliers timeline 1
      let base_cost := service_config.base_rate_per_sqft * square_footage
      let material_cost := base_cost * material_multiplier
      let region_adjustment := material_cost * region_multiplier - material_cost
      let timeline_adjustment :=
        (material_cost + region_adjustment) * timeline_multiplier
          - (material_cost + region_adjustment)
      let subtotal := base_cost + (material_cost - base_cost) + region_adjustment
          + timeline_adjustment
      let total_estimate := subtotal + service_config.permit_fee
      let price_range_low := total_estimate * (1 - service_config.price_range_percentage)
      let price_range_high := total_estimate * (1 + service_config.price_range_percentage)
      some {
        service_type := service_type
        square_footage := square_footage
        location := location
        material_type := material_type
        timeline := timeline
        base_cost := base_cost
        material_cost := material_cost - base_cost
        region_adjustment := region_adjustment
        timeline_adjustment := timeline_adjustment
        permit_fee := service_config.permit_fee
        total_estimate := total_estimate
        price_range_low := price_range_low
        price_range_high := price_range_high
        image_references := image_references }
    | _, _, _, _ => none
  else none

/-- The pricing total of `calculate_estimate` as a function of the lowered
lookup keys: `base + (material - base) + region_adj + timeline_adj + fee`,
with each multiplier looked up with default 1. -/
def calcTotal (cfg : ServiceConfig) (area : ℚ) (loc mat tl : String) : ℚ :=
  let base := cfg.base_rate_per_sqft * area
  let material := base * tableGet cfg.materials mat 1
  let region_adj := material * tableGet cfg.regions loc 1 - material
  let timeline_adj :=
    (material + region_adj) * tableGet cfg.timeline_multipliers tl 1
      - (material + region_adj)
  base + (material - base) + region_adj + timeline_adj + cfg.permit_fee

/-- `estimator.get_missing_info`: the loop appending each required field that
is absent or falsy, in order. -/
def get_missing_info (required_info : List String) (extracted_info : Dict) : List String :=
  match required_info with
  | [] => []
  | f :: rest =>
    if fieldPresent extracted_info f then get_missing_info rest extracted_info
    else f :: get_missing_info rest extracted_info

/-- The completeness test as the specification words it (§4.2): a field is
missing iff absent from the facts or equal to an empty string / null. -/
def spec_missing (required_info : List String) (extracted_info : Dict) : List String :=
  required_info.filter (fun f =>
    match dget extracted_info f with
    | none => true
    | some (.vStr "") => true
    | some .vNone => true
    | some _ => false)

/-- One step of the `EstimateResult.dict()` demo rescaling (`models.py`):
a stored cost below 1000 is multiplied by a fresh `random.uniform(10, 20)`
draw.  `draws` is the stream of sampled factors; the counter is the index of
the next unconsumed draw. -/
def demoScale (draws : ℕ → ℚ) (v : ℚ) (i : ℕ) : ℚ × ℕ :=
  if v < 1000 then (v * draws i, i + 1) else (v, i)

/-- `models.EstimateResult.dict`: the dictionary stored into the state, with
the "ensure numeric values are at least in the thousands for demo purposes"
randomized rescaling applied to the eight cost keys in their listed order. -/
def estimateDict (e : EstimateResult) (draws : ℕ → ℚ) : EstimateResult :=
  let (b, i1) := demoScale draws e.base_cost 0
  let (m, i2) := demoScale draws e.material_cost i1
  let (r, i3) := demoScale draws e.region_adjustment i2
  let (t, i4) := demoScale draws e.timeline_adjustment i3
  let (p, i5) := demoScale draws e.permit_fee i4
  let (tot, i6) := demoScale draws e.total_estimate i5
  let (lo, i7) := demoScale draws e.price_range_low i6
  let (hi, _) := demoScale draws e.price_range_high i7
  { e with
    base_cost := b, material_cost := m, region_adjustment := r,
    timeline_adjustment := t, permit_fee := p, total_estimate := tot,
    price_range_low := lo, price_range_high := hi }

/-- A token of the (tiny) regex fragment used by the extraction patterns:
a literal or `\s*`.  An optional piece `x?` of a source pattern is expanded
into explicit alternatives (with and without `x`), which is the standard
rewriting `x? ≡ (x|ε)` distributed over the alternation. -/
inductive Tok where
  | lit : List Char → Tok
  | ws : Tok

/-- A regex alternation `\b(a|b|...)\b` (or, unanchored, `(?:a|b|...)`):
each alternative is a token sequence. -/
def Pattern := List (List Tok)

/-- Shorthand: a single-literal alternative. -/
def w1 (s : String) : List Tok := [Tok.lit s.toList]

/-- Shorthand: the alternative `a\s*b`. -/
def w2 (a b : String) : List Tok := [Tok.lit a.toList, Tok.ws, Tok.lit b.toList]

/-- All ways `\s*` can consume a (possibly empty) run of leading whitespace. -/
def wsSuffixes : List Char → List (List Char)
  | [] => [[]]
  | c :: cs => (c :: cs) :: (if isSpaceChar c then wsSuffixes cs else [])

/-- Match a token sequence at the head of the text, returning every possible
remainder (regex backtracking made explicit). -/
def matchToks : List Tok → List Char → List (List Char)
  | [], cs => [cs]
  | .lit l :: ts, cs =>
    if l.isPrefixOf cs then matchToks ts (cs.drop l.length) else []
  | .ws :: ts, cs => (wsSuffixes cs).flatMap (fun cs2 => matchToks ts cs2)

/-- The closing `\b` of a pattern whose alternatives end in word characters:
the remainder is empty or starts with a non-word character. -/
def matchEnd : List Char → Bool
  | [] => true
  | c :: _ => !isWordChar c

/-- Some alternative of the pattern matches here and ends on a `\b` boundary. -/
def matchesAt (alts : Pattern) (cs : List Char) : Bool :=
  alts.any (fun alt => (matchToks alt cs).any matchEnd)

/-- Scan for a `\b(...)\b` match; `prevWord` tracks whether the previous
character was a word character (the opening `\b` needs it not to be, since
every alternative starts with a word character). -/
def searchWordAux (alts : Pattern) : List Char → Bool → Bool
  | [], _ => false
  | c :: cs, prevWord =>
    (!prevWord && matchesAt alts (c :: cs)) || searchWordAux alts cs (isWordChar c)

/-- `re.search(r'\b(...)\b', text) is not None`. -/
def reSearchWord (alts : Pattern) (cs : List Char) : Bool :=
  searchWordAux alts cs false

/-- Some alternative matches at the head of the text (no boundary required,
for the unanchored unit suffix of the square-footage regex). -/
def unitAt (alts : Pattern) (cs : List Char) : Bool :=
  alts.any (fun alt => !(matchToks alt cs).isEmpty)

/-- Numeric value of a captured digit group after `.replace(',', '')`. -/
def digitsVal (run : List Char) : ℕ :=
  (run.filter Char.isDigit).foldl (fun n c => 10 * n + (c.toNat - 48)) 0

/-- Left-to-right scan for `(\d[\d,]*)\s*<units>`: at the first position where
a digit starts, take the maximal digit/comma run, skip whitespace, and require
a unit suffix; on failure resume one character further (the regex engine
backtracking inside the run or the whitespace cannot help, as the unit
alternatives start with a non-digit, non-comma, non-space character). -/
def sqFtScanAux (units : Pattern) : List Char → Option ℚ
  | [] => none
  | c :: cs =>
    if c.isDigit then
      let run := (c :: cs).takeWhile (fun d => d.isDigit || d = ',')
      let rest := ((c :: cs).drop run.length).dropWhile isSpaceChar
      if unitAt units rest then some ((digitsVal run : ℕ) : ℚ)
      else sqFtScanAux units cs
    else sqFtScanAux units cs

/-- `re.findall(r'\b(\d{3,5})\b', text)`: maximal digit runs of length 3–5
flanked by word boundaries, left to right.  The scan advances one character
at a time; positions inside a digit run carry `prevWord = true` and so can
never open a `\b` boundary, which makes this equivalent to the regex engine
resuming after each match. -/
def findNumsAux : List Char → Bool → List ℕ
  | [], _ => []
  | c :: cs, prevWord =>
    if c.isDigit ∧ !prevWord then
      let run := c :: cs.takeWhile Char.isDigit
      let rest := cs.drop (cs.takeWhile Char.isDigit).length
      if 3 ≤ run.length ∧ run.length ≤ 5 ∧ matchEnd rest then
        digitsVal run :: findNumsAux cs true
      else findNumsAux cs true
    else findNumsAux cs (isWordChar c)

/-- `re.match(r'^\s*(\d[\d,]*)\s*$', text.strip())`: the whole stripped text
is a digit followed by digits/commas. -/
def numericOnly (t : List Char) : Option ℚ :=
  let st := ((t.dropWhile isSpaceChar).reverse.dropWhile isSpaceChar).reverse
  match st with
  | [] => none
  | c :: cs =>
    if c.isDigit ∧ cs.all (fun d => d.isDigit || d = ',') then
      some ((digitsVal (c :: cs) : ℕ) : ℚ)
    else none

/-- `\b(roof|roofing|shingles?)\b` (`shingles?` expanded). -/
def roofingPat : Pattern := [w1 "roof", w1 "roofing", w1 "shingles", w1 "shingle"]

/-- `\b(siding|exterior|cladding)\b`. -/
def sidingPat : Pattern := [w1 "siding", w1 "exterior", w1 "cladding"]

/-- The northeast alternatives of `region_patterns`. -/
def northeastPat : Pattern :=
  [w2 "north" "east", w1 "northeastern", w2 "new" "england",
   w1 "ny", w1 "ma", w1 "ct", w1 "ri", w1 "vt", w1 "nh", w1 "me",
   w2 "new" "york", w1 "massachusetts", w1 "connecticut", w2 "rhode" "island",
   w1 "vermont", w2 "new" "hampshire", w1 "maine"]

/-- The midwest alternatives of `region_patterns`. -/
def midwestPat : Pattern :=
  [w2 "mid" "west", w1 "midwest", w1 "oh", w1 "mi", w1 "in", w1 "il", w1 "wi",
   w1 "mn", w1 "ia", w1 "mo", w1 "nd", w1 "sd", w1 "ne", w1 "ks",
   w1 "ohio", w1 "michigan", w1 "indiana", w1 "illinois", w1 "wisconsin",
   w1 "minnesota", w1 "iowa", w1 "missouri", w2 "north" "dakota",
   w2 "south" "dakota", w1 "nebraska", w1 "kansas"]

/-- The south alternatives of `region_patterns`. -/
def southPat : Pattern :=
  [w1 "south", w1 "southeastern", w1 "tx", w1 "ok", w1 "ar", w1 "la", w1 "ms",
   w1 "al", w1 "tn", w1 "ky", w1 "fl", w1 "ga", w1 "sc", w1 "nc", w1 "va",
   w1 "wv", w1 "md", w1 "de", w1 "dc", w1 "texas", w1 "oklahoma", w1 "arkansas",
   w1 "louisiana", w1 "mississippi", w1 "alabama", w1 "tennessee", w1 "kentucky",
   w1 "florida", w1 "georgia", w2 "south" "carolina", w2 "north" "carolina",
   w1 "virginia", w2 "west" "virginia", w1 "maryland", w1 "delaware"]

/-- The west alternatives of `region_patterns`. -/
def westPat : Pattern :=
  [w1 "west", w1 "western", w1 "ca", w1 "or", w1 "wa", w1 "nv", w1 "id",
   w1 "mt", w1 "wy", w1 "ut", w1 "co", w1 "az", w1 "nm", w1 "hi", w1 "ak",
   w1 "california", w1 "oregon", w1 "washington", w1 "nevada", w1 "idaho",
   w1 "montana", w1 "wyoming", w1 "utah", w1 "colorado", w1 "arizona",
   w2 "new" "mexico", w1 "hawaii", w1 "alaska"]

/-- `region_patterns` in insertion order. -/
def regionCats : List (String × List Pattern) :=
  [("northeast", [northeastPat]), ("midwest", [midwestPat]),
   ("south", [southPat]), ("west", [westPat])]

/-- `\b(asphalt|composite|shingles?|architectural)\b` (`shingles?` expanded). -/
def asphaltPat : Pattern :=
  [w1 "asphalt", w1 "composite", w1 "shingles", w1 "shingle", w1 "architectural"]

/-- `\b(metal|steel|aluminum|tin|copper)\b`. -/
def metalPat : Pattern := [w1 "metal", w1 "steel", w1 "aluminum", w1 "tin", w1 "copper"]

/-- `\b(tile|clay|ceramic|terracotta|concrete\s*tile)\b`. -/
def tilePat : Pattern :=
  [w1 "tile", w1 "clay", w1 "ceramic", w1 "terracotta", w2 "concrete" "tile"]

/-- `\b(slate|stone|natural\s*slate)\b`. -/
def slatePat : Pattern := [w1 "slate", w1 "stone", w2 "natural" "slate"]

/-- `material_patterns` in insertion order. -/
def materialCats : List (String × List Pattern) :=
  [("asphalt", [asphaltPat]), ("metal", [metalPat]),
   ("tile", [tilePat]), ("slate", [slatePat])]

/-- `\b(standard|normal|regular|usual|typical|60\s*days|2\s*months)\b`. -/
def standardPat : Pattern :=
  [w1 "standard", w1 "normal", w1 "regular", w1 "usual", w1 "typical",
   w2 "60" "days", w2 "2" "months"]

/-- `\b(expedited|rush|urgent|quick|soon|30\s*days|1\s*month)\b`. -/
def expeditedPat : Pattern :=
  [w1 "expedited", w1 "rush", w1 "urgent", w1 "quick", w1 "soon",
   w2 "30" "days", w2 "1" "month"]

/-- `\b(emergency|immediate|right\s*away|asap|as\s*soon\s*as\s*possible|immediately|7\s*days|week)\b`. -/
def emergencyPat : Pattern :=
  [w1 "emergency", w1 "immediate", w2 "right" "away", w1 "asap",
   [Tok.lit "as".toList, Tok.ws, Tok.lit "soon".toList, Tok.ws,
    Tok.lit "as".toList, Tok.ws, Tok.lit "possible".toList],
   w1 "immediately", w2 "7" "days", w1 "week"]

/-- `timeline_patterns` in insertion order. -/
def timelineCats : List (String × List Pattern) :=
  [("standard", [standardPat]), ("expedited", [expeditedPat]),
   ("emergency", [emergencyPat])]

/-- The double loop over a category dictionary with `break`: the first
category one of whose patterns matches the text. -/
def pickCategory (cats : List (String × List Pattern)) (t : List Char) : Option String :=
  (cats.find? (fun c => c.2.any (fun p => reSearchWord p t))).map Prod.fst

/-- The alternatives of `sq\.?\s*ft\.?` with both optional dots expanded. -/
def sqDotFt : List (List Tok) :=
  [[Tok.lit "sq.".toList, Tok.ws, Tok.lit "ft.".toList],
   [Tok.lit "sq.".toList, Tok.ws, Tok.lit "ft".toList],
   [Tok.lit "sq".toList, Tok.ws, Tok.lit "ft.".toList],
   [Tok.lit "sq".toList, Tok.ws, Tok.lit "ft".toList]]

/-- The unit suffix of the square-footage regex in `extract_info_from_text`:
`(?:sq\.?\s*ft\.?|square\s*feet|square\s*foot|sq(?:\s*\.)?(?:\s*footage)?)`
with the optional pieces expanded into alternatives. -/
def sqFtUnitsFull : Pattern :=
  sqDotFt ++
  [w2 "square" "feet",
   w2 "square" "foot",
   [Tok.lit "sq".toList, Tok.ws, Tok.lit ".".toList, Tok.ws, Tok.lit "footage".toList],
   [Tok.lit "sq".toList, Tok.ws, Tok.lit ".".toList],
   [Tok.lit "sq".toList, Tok.ws, Tok.lit "footage".toList],
   [Tok.lit "sq".toList]]

/-- The unit suffix of the tier-1 square-footage regex in
`information_extractor`: `(?:sq\.?\s*ft\.?|square\s*feet|square\s*foot)`. -/
def sqFtUnitsShort : Pattern :=
  sqDotFt ++ [w2 "square" "feet", w2 "square" "foot"]

/-- The record produced by `graph.ExtractedInfo` / `extract_info_from_text`. -/
structure ExtractedInfo where
  service_type : Option String
  square_footage : Option ℚ
  location : Option String
  material_type : Option String
  timeline : Option String
deriving DecidableEq

/-- `graph.extract_info_from_text`. -/
def extract_info_from_text (text : String) : ExtractedInfo :=
  let t := (pyLower text).toList
  let service_type :=
    if reSearchWord roofingPat t then some "roofing"
    else if reSearchWord sidingPat t then some "siding"
    else none
  let sq1 := sqFtScanAux sqFtUnitsFull t
  let sq2 :=
    match sq1 with
    | some v => some v
    | none =>
      let ctx := subInfix "feet".toList t || subInfix "foot".toList t ||
        subInfix "footage".toList t || subInfix "area".toList t ||
        subInfix "size".toList t
      ((findNumsAux t false).find? (fun n =>
        decide (500 ≤ n) && decide (n ≤ 10000) && ctx)).map (fun n => ((n : ℕ) : ℚ))
  let sq3 :=
    match numericOnly t with
    | some v => if sq2 = none ∨ sq2 = some 0 then some v else sq2
    | none => sq2
  { service_type := service_type
    square_footage := sq3
    location := pickCategory regionCats t
    material_type := pickCategory materialCats t
    timeline := pickCategory timelineCats t }

/-- The context string built by `format_extraction_response`: the last (up to)
six history messages rendered as `Role: content` lines. -/
def contextOf (history : List (String × String)) : String :=
  String.join ((history.drop (history.length - 6)).map (fun m =>
    (if m.1 = "assistant" then "Assistant: " else "User: ") ++ m.2 ++ "\n"))

/-- The combined text handed to `extract_info_from_text` by the extraction
chain: recent-history context plus the current user input. -/
def buildFullText (history : List (String × String)) (input : String) : String :=
  contextOf history ++ "\nCurrent User Input: " ++ input

/-- The default roofing service entry of `config.DEFAULT_CONFIG`. -/
def roofingConfig : ServiceConfig where
  required_info := ["service_type", "square_footage", "location", "material_type", "timeline"]
  base_rate_per_sqft := 5
  materials := [("asphalt", 1), ("metal", 1.5), ("tile", 1.8), ("slate", 2.2)]
  regions := [("northeast", 1.2), ("midwest", 1), ("south", 0.9), ("west", 1.3)]
  timeline_multipliers := [("standard", 1), ("expedited", 1.25), ("emergency", 1.5)]
  permit_fee := 250
  price_range_percentage := 0.1

/-- A service-config dictionary with no keys: every `.get` in
`calculate_estimate` falls back to its default (0 rates, empty tables,
range fraction 0.1). -/
def emptyServiceConfig : ServiceConfig where
  required_info := []
  base_rate_per_sqft := 0
  materials := []
  regions := []
  timeline_multipliers := []
  permit_fee := 0
  price_range_percentage := 0.1

/-- `models.GraphState`.  `service_config` starts as the empty dictionary;
`image_analysis` is not modelled (it is only populated by the image-upload
entry point, outside the message turns treated here). -/
structure GraphState where
  session_id : String := ""
  conversation_history : List (String × String) := []
  user_input : String := ""
  extracted_info : Dict := []
  required_info : List String := []
  current_question : String := ""
  image_references : List String := []
  final_estimate : Option EstimateResult := none
  service_config : ServiceConfig := emptyServiceConfig
  next : Option String := none

/-- `GraphState.add_to_history`. -/
def addToHistory (state : GraphState) (role content : String) : GraphState :=
  { state with conversation_history := state.conversation_history ++ [(role, content)] }

/-- Python `s.replace("_", " ")`. -/
def underscoresToSpaces (s : String) : String :=
  String.mk (s.toList.map (fun c => if c = '_' then ' ' else c))

/-- Canned response for an exact-match greeting (`utils.generate_next_question`). -/
def greetingResponse : String :=
  "Hello! Is there anything specific you\x27d like to know about your estimate?"

/-- Canned response when the follow-up contains "thank". -/
def gratitudeResponse : String :=
  "You\x27re welcome! If you have any other questions about your estimate or our services, feel free to ask."

/-- Canned response for scheduling follow-ups. -/
def timelineResponse : String :=
  "Based on your selected timeline, we can typically schedule the work within our standard processing times. Would you like me to provide more details on scheduling?"

/-- Canned response for material follow-ups. -/
def materialResponse : String :=
  "We use high-quality materials from trusted suppliers. The estimate is based on the material type you\x27ve selected. Would you like more information about the specific brands we work with?"

/-- Canned response for warranty follow-ups. -/
def warrantyResponse : String :=
  "We offer a standard warranty on all our work. The exact terms depend on the service and materials selected. Would you like me to explain our warranty policy in more detail?"

/-- Default canned response for other follow-ups. -/
def followupDefaultResponse : String :=
  "Thank you for your question. Is there anything specific about the estimate you\x27d like me to clarify or explain further?"

/-- Sentinel message when everything is known but no estimate exists yet. -/
def readyResponse : String :=
  "I have all the information I need. Let me prepare your estimate."

/-- The per-field question table of `utils.generate_next_question`, with its
templated fallback for unknown fields. -/
def questionFor (f : String) : String :=
  if f = "service_type" then "What type of service are you looking for? (e.g., roofing)"
  else if f = "square_footage" then "What is the approximate square footage of the area?"
  else if f = "location" then "In which region are you located? (Northeast, Midwest, South, or West)"
  else if f = "material_type" then "What type of material would you prefer? For roofing, options include asphalt, metal, tile, or slate."
  else if f = "timeline" then "What is your preferred timeline? (standard, expedited, or emergency)"
  else "Please provide information about " ++ underscoresToSpaces f ++ "."

/-- `utils.generate_next_question`. -/
def generate_next_question (missing_info : List String) (extracted_info : Dict)
    (has_estimate : Bool) (last_user_message : String) : String :=
  match missing_info with
  | [] =>
    if has_estimate then
      let lm := pyLower last_user_message
      if lm = "hi" ∨ lm = "hello" ∨ lm = "hey" then greetingResponse
      else if pyIn "thank" lm then gratitudeResponse
      else if ["how long", "timeline", "when", "schedule"].any (fun q => pyIn q lm) then
        timelineResponse
      else if ["material", "quality", "brand"].any (fun q => pyIn q lm) then
        materialResponse
      else if ["warranty", "guarantee"].any (fun q => pyIn q lm) then
        warrantyResponse
      else followupDefaultResponse
    else readyResponse
  | next_field :: _ => questionFor next_field

/-- `utils.format_estimate_for_display`, with presentation-level number
formatting (`.title()` capitalization, thousands separators, two-decimal
rounding) elided; the message structure and embedded fields follow the
source. -/
def format_estimate_for_display (e : EstimateResult) : String :=
  "# 📋 Estimate for " ++ e.service_type ++ " Service\n\n## Project Details:\n" ++
  "- **Square Footage**: " ++ toString e.square_footage ++ " sq ft\n" ++
  "- **Location**: " ++ e.location ++ "\n" ++
  "- **Material**: " ++ e.material_type ++ "\n" ++
  "- **Timeline**: " ++ e.timeline ++ "\n" ++
  (if e.image_references.isEmpty then ""
   else "- **Images Provided**: " ++ toString e.image_references.length ++ "\n") ++
  "\n## Cost Breakdown:\n" ++
  "- **Base Cost**: $" ++ toString e.base_cost ++ "\n" ++
  "- **Material Cost**: $" ++ toString e.material_cost ++ "\n" ++
  "- **Regional Adjustment**: $" ++ toString e.region_adjustment ++ "\n" ++
  "- **Timeline Adjustment**: $" ++ toString e.timeline_adjustment ++ "\n" ++
  "- **Permit Fee**: $" ++ toString e.permit_fee ++ "\n" ++
  "\n## Total Estimate: $" ++ toString e.total_estimate ++ "\n" ++
  "## Price Range: $" ++ toString e.price_range_low ++ " - $" ++
  toString e.price_range_high ++ "\n\n" ++
  "*Note: This is a preliminary estimate and may change based on final inspection.*"

/-- The welcome message of `graph.start_node`. -/
def welcomeMessage : String :=
  "Welcome to the Interactive Estimation System! I\x27m here to help you get an estimate for your project. I\x27ll ask you a series of questions, and you can also upload images if needed. Let\x27s get started!"

/-- The `services` table of `config.ESTIMATION_CONFIG` (default configuration). -/
def configServices : List (String × ServiceConfig) := [("roofing", roofingConfig)]

/-- `graph.start_node`: attach the (default) roofing profile, append the
welcome message, and append a first question. -/
def start_node (state : GraphState) : GraphState :=
  let s1 :=
    match (configServices.find? (fun p => p.1 == "roofing")).map Prod.snd with
    | some cfg => { state with service_config := cfg, required_info := cfg.required_info }
    | none => state
  let s2 := addToHistory s1 "assistant" welcomeMessage
  let q := generate_next_question s2.required_info s2.extracted_info false ""
  addToHistory { s2 with current_question := q } "assistant" q

/-- `graph.input_processor`.  The `required_info` reset block at its top only
fires when `state.service_config` has a `"services"` key, which a per-service
config dictionary never has, so it is a no-op and is not modelled. -/
def input_processor (state : GraphState) : GraphState :=
  if ["image", "photo", "picture", "uploaded", "upload"].any
      (fun k => pyIn k (pyLower state.user_input)) then
    { state with next := some "image_handler" }
  else { state with next := some "information_extractor" }

/-- `graph.image_handler_node`.  The analysis branch requires stored base64
image data, which only the upload entry point (not a message turn) provides;
a message turn therefore reaches the confirmation branch. -/
def image_handler_node (state : GraphState) : GraphState :=
  let s1 := addToHistory state "assistant"
    "I\x27ve received your image. This will help with the estimation process."
  if s1.image_references.isEmpty then { s1 with image_references := ["image_1"] } else s1

/-- The question-keyword dispatch of `information_extractor` choosing the
field a short answer is expected to update. -/
def tierOneField (last_question : String) : Option String :=
  let lq := pyLower last_question
  if pyIn "square footage" lq ∨ pyIn "area" lq ∨ pyIn "how large" lq then
    some "square_footage"
  else if pyIn "location" lq ∨ pyIn "region" lq ∨ pyIn "where" lq then
    some "location"
  else if pyIn "material" lq ∨ pyIn "type of" lq then
    some "material_type"
  else if pyIn "timeline" lq ∨ pyIn "how soon" lq ∨ pyIn "when" lq then
    some "timeline"
  else none

/-- Python `s.replace(" ", "")`. -/
def removeSpaces (s : String) : String :=
  String.mk (s.toList.filter (fun c => c ≠ ' '))

/-- Tier-1 direct extraction of a location from a short reply. -/
def tierOneLocation (si : String) : Option String :=
  match ["northeast", "midwest", "south", "west", "north east", "mid west"].find?
      (fun r => pyIn r si) with
  | some r => some (removeSpaces r)
  | none =>
    if ["ne", "east coast", "ma", "ny"].any (fun x => pyIn x si) then some "northeast"
    else if ["mw", "middle", "central", "oh", "il"].any (fun x => pyIn x si) then some "midwest"
    else if ["s", "southeast", "fl", "tx", "ga"].any (fun x => pyIn x si) then some "south"
    else if ["w", "ca", "west coast", "pacific", "az"].any (fun x => pyIn x si) then some "west"
    else none

/-- Tier-1 direct extraction of a material from a short reply. -/
def tierOneMaterial (si : String) : Option String :=
  match ["asphalt", "metal", "tile", "slate"].find? (fun m => pyIn m si) with
  | some m => some m
  | none => if pyIn "shingle" si then some "asphalt" else none

/-- Tier-1 direct extraction of a timeline from a short reply (the ordered
`timeline_map` of `information_extractor`). -/
def tierOneTimeline (si : String) : Option String :=
  if ["standard", "normal", "regular", "typical", "60 days", "2 months"].any
      (fun t => pyIn t si) then some "standard"
  else if ["expedited", "rush", "urgent", "quick", "30 days", "1 month"].any
      (fun t => pyIn t si) then some "expedited"
  else if ["emergency", "immediate", "asap", "right away", "7 days", "week"].any
      (fun t => pyIn t si) then some "emergency"
  else none

/-- `re.search(r'(\d[\d,]*)', text)`: first digit-led run of digits/commas. -/
def firstNumScan : List Char → Option ℚ
  | [] => none
  | c :: cs =>
    if c.isDigit then
      some ((digitsVal (c :: cs.takeWhile (fun d => d.isDigit || d = ',')) : ℕ) : ℚ)
    else firstNumScan cs

/-- Tier-1 direct extraction of a square footage from a short reply:
first the number-with-unit regex, else any number. -/
def tierOneSquareFootage (si : String) : Option ℚ :=
  match sqFtScanAux sqFtUnitsShort si.toList with
  | some v => some v
  | none => firstNumScan si.toList

/-- Tier-1 value dispatch on the targeted field. -/
def tierOneValue (f : String) (si : String) : Option Value :=
  if f = "location" then (tierOneLocation si).map .vStr
  else if f = "material_type" then (tierOneMaterial si).map .vStr
  else if f = "timeline" then (tierOneTimeline si).map .vStr
  else if f = "square_footage" then (tierOneSquareFootage si).map .vNum
  else none

/-- The most recent assistant message in the history (the `last_question`
scan of `information_extractor`), defaulting to the empty string. -/
def lastAssistantContent (h : List (String × String)) : String :=
  match h.reverse.find? (fun m => m.1 == "assistant") with
  | some m => m.2
  | none => ""

/-- The facts dictionary after the tier-1 (targeted) extraction step of
`information_extractor`: when the last question targets a field and the reply
has at most 3 tokens, a directly extracted value is written into the facts. -/
def tier1Dict (state : GraphState) : Dict :=
  match tierOneField (lastAssistantContent state.conversation_history) with
  | some f =>
    if (pySplitWS (pyStrip state.user_input)).length ≤ 3 then
      match tierOneValue f (pyLower (pyStrip state.user_input)) with
      | some v => dset state.extracted_info f v
      | none => state.extracted_info
    else state.extracted_info
  | none => state.extracted_info

/-- Commit one string field of the tier-2 extraction result: only values that
are present and truthy (non-empty) are written. -/
def commitStrField (d : Dict) (k : String) (v : Option String) : Dict :=
  match v with
  | some s => if s.isEmpty then d else dset d k (.vStr s)
  | none => d

/-- Commit the numeric square-footage field: only present, non-zero values
are written (`if value:` in the source). -/
def commitNumField (d : Dict) (k : String) (v : Option ℚ) : Dict :=
  match v with
  | some q => if q = 0 then d else dset d k (.vNum q)
  | none => d

/-- The commit loop of `information_extractor` over the tier-2 extraction
result, in field order. -/
def commitExtract (d : Dict) (ex : ExtractedInfo) : Dict :=
  let d1 := commitStrField d "service_type" ex.service_type
  let d2 := commitNumField d1 "square_footage" ex.square_footage
  let d3 := commitStrField d2 "location" ex.location
  let d4 := commitStrField d3 "material_type" ex.material_type
  commitStrField d4 "timeline" ex.timeline

/-- `graph.information_extractor`: skip on blank input, run tier-1 targeted
extraction, then run the general extraction chain over context plus input and
commit its non-empty values. -/
def information_extractor (state : GraphState) : GraphState :=
  if pyStrip state.user_input = "" then state
  else
    let d1 := tier1Dict state
    let ex := extract_info_from_text
      (buildFullText state.conversation_history state.user_input)
    { state with extracted_info := commitExtract d1 ex }

/-- The recompute keyword list of `graph.state_updater`. -/
def estimateKeywords : List String :=
  ["new estimate", "recalculate", "update estimate", "different materials", "change"]

/-- `conversation_history[-1]["content"]`.  Python raises `IndexError` on an
empty history; the states reaching this lookup always have one, and the empty
default is never exercised under the theorems below. -/
def lastContent (h : List (String × String)) : String :=
  match h.getLast? with
  | some m => m.2
  | none => ""

/-- `graph.state_updater`: append the pending user input to the history,
clear it, and route on completeness / existing estimate / recompute keywords. -/
def state_updater (state : GraphState) : GraphState :=
  let s1 :=
    if pyStrip state.user_input = "" then state
    else addToHistory state "user" state.user_input
  let s2 := { s1 with user_input := "" }
  let missing := get_missing_info s2.required_info s2.extracted_info
  if missing.isEmpty ∧ s2.final_estimate.isSome then
    if estimateKeywords.any
        (fun k => pyIn k (pyLower (lastContent s2.conversation_history))) then
      { s2 with final_estimate := none, next := some "estimator" }
    else { s2 with next := some "question_generator" }
  else if missing.isEmpty then { s2 with next := some "estimator" }
  else { s2 with next := some "question_generator" }

/-- The most recent user message in the history, defaulting to the empty
string (`question_generator` scan). -/
def lastUserContent (h : List (String × String)) : String :=
  match h.reverse.find? (fun m => m.1 == "user") with
  | some m => m.2
  | none => ""

/-- `graph.question_generator`: pick the next question or contextual
follow-up, record it, and append it to the history (the turn then ends). -/
def question_generator (state : GraphState) : GraphState :=
  let missing := get_missing_info state.required_info state.extracted_info
  let q := generate_next_question missing state.extracted_info
    state.final_estimate.isSome (lastUserContent state.conversation_history)
  addToHistory { state with current_question := q } "assistant" q

/-- `extracted_info.get("service_type", "roofing")`; extraction only ever
stores strings there. -/
def getServiceType (info : Dict) : String :=
  match dget info "service_type" with
  | some (.vStr s) => s
  | _ => "roofing"

/-- `graph.estimator_node`: compute the estimate and store its `dict()`
rendering (with the demo rescaling draws) into the state on success. -/
def estimator_node (draws : ℕ → ℚ) (state : GraphState) : GraphState :=
  match calculate_estimate (getServiceType state.extracted_info)
      state.service_config state.extracted_info state.image_references with
  | some r => { state with final_estimate := some (estimateDict r draws) }
  | none => state

/-- The closing message of `graph.response_generator`. -/
def closingMessage : String :=
  "Thank you for using our estimation service! Is there anything else you\x27d like to know about this estimate?"

/-- The apology of `graph.response_generator` when recomputation fails. -/
def errorEstimateMessage : String :=
  "I\x27m sorry, I couldn\x27t generate an estimate with the provided information. Please check your inputs."

/-- `graph.response_generator`: emit the stored estimate, or defensively
recompute once when all fields are known but no estimate is stored. -/
def response_generator (draws : ℕ → ℚ) (state : GraphState) : GraphState :=
  match state.final_estimate with
  | some e =>
    addToHistory (addToHistory state "assistant" (format_estimate_for_display e))
      "assistant" closingMessage
  | none =>
    if (get_missing_info state.required_info state.extracted_info).isEmpty then
      match calculate_estimate (getServiceType state.extracted_info)
          state.service_config state.extracted_info state.image_references with
      | some r =>
        let s0 := { state with final_estimate := some (estimateDict r draws) }
        addToHistory (addToHistory s0 "assistant"
          (format_estimate_for_display (estimateDict r draws))) "assistant" closingMessage
      | none => addToHistory state "assistant" errorEstimateMessage
    else state

/-- One full graph execution for one user message (`process_user_message`
invoking the compiled graph): the entry point is `start`, then
`input_processor`, optionally `image_handler`, `information_extractor`,
`state_updater`, and finally either the estimate path or a question.
The direct pre-extraction block of `process_user_message` (which only
pre-seeds facts before the graph runs) is not modelled. -/
def runTurn (state : GraphState) (message : String) (draws : ℕ → ℚ) : GraphState :=
  let s0 := { state with user_input := message }
  let s1 := start_node s0
  let s2 := input_processor s1
  let s3 :=
    if s2.next = some "image_handler" then information_extractor (image_handler_node s2)
    else information_extractor s2
  let s4 := state_updater s3
  if s4.next = some "estimator" then response_generator draws (estimator_node draws s4)
  else question_generator s4

/-- The Scenario-1 service profile of the specification (§8): base rate 5.0,
asphalt 1.0, northeast 1.2, standard 1.0, fixed fee 250, range fraction 0.1,
required fields area/region/material/timeline. -/
def scenario1Profile : ServiceConfig where
  required_info := ["square_footage", "location", "material_type", "timeline"]
  base_rate_per_sqft := 5
  materials := [("asphalt", 1)]
  regions := [("northeast", 1.2)]
  timeline_multipliers := [("standard", 1)]
  permit_fee := 250
  price_range_percentage := 0.1

/-- The Scenario-1 fact set: area 2000, northeast, asphalt, standard. -/
def scenario1Facts : Dict :=
  [("square_footage", .vNum 2000), ("location", .vStr "northeast"),
   ("material_type", .vStr "asphalt"), ("timeline", .vStr "standard")]

/-- The estimate the pricing engine computes for Scenario 1. -/
def scenario1Result : EstimateResult where
  service_type := "roofing"
  square_footage := 2000
  location := "northeast"
  material_type := "asphalt"
  timeline := "standard"
  base_cost := 10000
  material_cost := 0
  region_adjustment := 2000
  timeline_adjustment := 0
  permit_fee := 250
  total_estimate := 12250
  price_range_low := 11025
  price_range_high := 13475
  image_references := []

/-- A state holding the complete Scenario-1 facts, ready for the estimator. -/
def c2State : GraphState :=
  { session_id := "s2", extracted_info := scenario1Facts,
    required_info := scenario1Profile.required_info,
    service_config := scenario1Profile }

/-- A draw stream where `random.uniform(10, 20)` always returns 10. -/
def uniformLow : ℕ → ℚ := fun _ => 10

/-- A draw stream where `random.uniform(10, 20)` always returns 11. -/
def uniformMid : ℕ → ℚ := fun _ => 11

/-- Complete roofing facts with a given material value (default config). -/
def c7Facts (material : String) : Dict :=
  [("service_type", .vStr "roofing"), ("square_footage", .vNum 1000),
   ("location", .vStr "midwest"), ("material_type", .vStr material),
   ("timeline", .vStr "standard")]

/-- A complete state with an existing estimate whose pending user message
contains the word "different" but no keyword of the source list. -/
def cexState5 : GraphState :=
  { session_id := "s5", user_input := "I would like a different color",
    extracted_info := scenario1Facts,
    required_info := scenario1Profile.required_info,
    final_estimate := some scenario1Result,
    service_config := scenario1Profile }

/-- A complete state with an existing estimate whose pending user message is
the Scenario-4 recompute request. -/
def recomputeState : GraphState :=
  { session_id := "s4", user_input := "recalculate with metal roofing",
    extracted_info := scenario1Facts,
    required_info := scenario1Profile.required_info,
    final_estimate := some scenario1Result,
    service_config := scenario1Profile }

/-- A complete state with an existing estimate whose pending user message is
the Scenario-3 gratitude follow-up. -/
def thanksState : GraphState :=
  { session_id := "s3", user_input := "Thanks!",
    extracted_info := scenario1Facts,
    required_info := scenario1Profile.required_info,
    final_estimate := some scenario1Result,
    service_config := scenario1Profile }

/-- A state answering the timeline question with the one-token reply "week":
tier-1 targeted extraction maps it to "emergency", while the general
extraction over context plus input sees the word "standard" inside the
echoed question text. -/
def cexState6 : GraphState :=
  { session_id := "s6",
    conversation_history :=
      [("assistant", "What is your preferred timeline? (standard, expedited, or emergency)")],
    user_input := "week" }

/-! ### Theorems -/

/-- Closed form of `calculate_estimate` on a complete, well-typed fact set:
shared unfolding lemma for the pricing claims. -/
theorem calculate_estimate_spec (stype : String) (cfg : ServiceConfig) (info : Dict)
    (irefs : List String) (area : ℚ) (loc mat tl : String)
    (hreq : cfg.required_info.all (fieldPresent info) = true)
    (ha : dget info "square_footage" = some (.vNum area))
    (hl : dget info "location" = some (.vStr loc))
    (hm : dget info "material_type" = some (.vStr mat))
    (ht : dget info "timeline" = some (.vStr tl)) :
    calculate_estimate stype cfg info irefs = some
      { service_type := stype
        square_footage := area
        location := pyLower loc
        material_type := pyLower mat
        timeline := pyLower tl
        base_cost := cfg.base_rate_per_sqft * area
        material_cost :=
          cfg.base_rate_per_sqft * area * tableGet cfg.materials (pyLower mat) 1
            - cfg.base_rate_per_sqft * area
        region_adjustment :=
          cfg.base_rate_per_sqft * area * tableGet cfg.materials (pyLower mat) 1
              * tableGet cfg.regions (pyLower loc) 1
            - cfg.base_rate_per_sqft * area * tableGet cfg.materials (pyLower mat) 1
        timeline_adjustment :=
          (cfg.base_rate_per_sqft * area * tableGet cfg.materials (pyLower mat) 1
              + (cfg.base_rate_per_sqft * area * tableGet cfg.materials (pyLower mat) 1
                  * tableGet cfg.regions (pyLower loc) 1
                - cfg.base_rate_per_sqft * area * tableGet cfg.materials (pyLower mat) 1))
              * tableGet cfg.timeline_multipliers (pyLower tl) 1
            - (cfg.base_rate_per_sqft * area * tableGet cfg.materials (pyLower mat) 1
              + (cfg.base_rate_per_sqft * area * tableGet cfg.materials (pyLower mat) 1
                  * tableGet cfg.regions (pyLower loc) 1
                - cfg.base_rate_per_sqft * area * tableGet cfg.materials (pyLower mat) 1))
        permit_fee := cfg.permit_fee
        total_estimate := calcTotal cfg area (pyLower loc) (pyLower mat) (pyLower tl)
        price_range_low :=
          calcTotal cfg area (pyLower loc) (pyLower mat) (pyLower tl)
            * (1 - cfg.price_range_percentage)
        price_range_high :=
          calcTotal cfg area (pyLower loc) (pyLower mat) (pyLower tl)
            * (1 + cfg.price_range_percentage)
        image_references := irefs } := by
  unfold calculate_estimate
  rw [hreq]
  simp only [dgetD, ha, hl, hm, ht, Option.getD_some, pyFloatV, asStrV, if_true, calcTotal]

/-- C1: on a complete fact set the pricing operation computes
`base = base_rate * area`, the material-adjusted cost `base * material_mult`,
`region_adj = material * region_mult - material`,
`timeline_adj = (material + region_adj) * timeline_mult - (material + region_adj)`,
`total = base + (material - base) + region_adj + timeline_adj + fixed_fee`,
`low/high = total * (1 ∓ range_fraction)`, and reports `material_cost` as
`material - base` (the increment only).  The Scenario-1 numbers are checked in
the witness. -/
theorem pricing_formula (stype : String) (cfg : ServiceConfig) (info : Dict)
    (irefs : List String) (area : ℚ) (loc mat tl : String)
    (hreq : cfg.required_info.all (fieldPresent info) = true)
    (ha : dget info "square_footage" = some (.vNum area))
    (hl : dget info "location" = some (.vStr loc))
    (hm : dget info "material_type" = some (.vStr mat))
    (ht : dget info "timeline" = some (.vStr tl)) :
    ∃ r, calculate_estimate stype cfg info irefs = some r ∧
      (let base := cfg.base_rate_per_sqft * area
       let material := base * tableGet cfg.materials (pyLower mat) 1
       let region_adj := material * tableGet cfg.regions (pyLower loc) 1 - material
       let timeline_adj :=
         (material + region_adj) * tableGet cfg.timeline_multipliers (pyLower tl) 1
           - (material + region_adj)
       let total := base + (material - base) + region_adj + timeline_adj + cfg.permit_fee
       r.base_cost = base ∧ r.material_cost = material - base ∧
       r.region_adjustment = region_adj ∧ r.timeline_adjustment = timeline_adj ∧
       r.permit_fee = cfg.permit_fee ∧ r.total_estimate = total ∧
       r.price_range_low = total * (1 - cfg.price_range_percentage) ∧
       r.price_range_high = total * (1 + cfg.price_range_percentage)) := by
  refine ⟨_, calculate_estimate_spec stype cfg info irefs area loc mat tl
    hreq ha hl hm ht, ?_⟩
  simp [calcTotal]

/-- Witness for C1: the Scenario-1 profile and facts yield base 10000,
material increment 0, region adjustment 2000, timeline adjustment 0,
total 12250, low 11025, high 13475. -/
theorem pricing_formula_witness :
    (calculate_estimate "roofing" scenario1Profile scenario1Facts []).map (·.base_cost)
        = some 10000 ∧
    (calculate_estimate "roofing" scenario1Profile scenario1Facts []).map (·.material_cost)
        = some 0 ∧
    (calculate_estimate "roofing" scenario1Profile scenario1Facts []).map (·.region_adjustment)
        = some 2000 ∧
    (calculate_estimate "roofing" scenario1Profile scenario1Facts []).map (·.timeline_adjustment)
        = some 0 ∧
    (calculate_estimate "roofing" scenario1Profile scenario1Facts []).map (·.total_estimate)
        = some 12250 ∧
    (calculate_estimate "roofing" scenario1Profile scenario1Facts []).map (·.price_range_low)
        = some 11025 ∧
    (calculate_estimate "roofing" scenario1Profile scenario1Facts []).map (·.price_range_high)
        = some 13475 := by
  obtain ⟨r, hr, h1, h2, h3, h4, h5, h6, h7, h8⟩ :=
    pricing_formula "roofing" scenario1Profile scenario1Facts [] 2000
      "northeast" "asphalt" "standard" (by decide) (by decide) (by decide)
      (by decide) (by decide)
  have e1 : pyLower "northeast" = "northeast" := by decide
  have e2 : pyLower "asphalt" = "asphalt" := by decide
  have e3 : pyLower "standard" = "standard" := by decide
  have t1 : tableGet scenario1Profile.materials "asphalt" 1 = 1 := by
    simp [tableGet, scenario1Profile, List.find?]
  have t2 : tableGet scenario1Profile.regions "northeast" 1 = 1.2 := by
    simp [tableGet, scenario1Profile, List.find?]
  have t3 : tableGet scenario1Profile.timeline_multipliers "standard" 1 = 1 := by
    simp [tableGet, scenario1Profile, List.find?]
  simp only [e1, e2, e3, t1, t2, t3] at h2 h3 h4 h6 h7 h8
  rw [hr]
  simp only [Option.map_some']
  refine ⟨?_, ?_, ?_, ?_, ?_, ?_, ?_⟩ <;>
    simp only [h1, h2, h3, h4, h5, h6, h7, h8, scenario1Profile] <;> norm_num

/-- `get_missing_info` is the filter of the required fields by the
absent-or-falsy test. -/
theorem get_missing_info_eq_filter (req : List String) (info : Dict) :
    get_missing_info req info = req.filter (fun f => !fieldPresent info f) := by
  induction req with
  | nil => rfl
  | cons f rest ih =>
    cases h : fieldPresent info f <;>
      simp [get_missing_info, h, ih, List.filter_cons]

/-- C3 counterexample: a required field mapped to the number 0 is reported
missing by the code, although it is neither absent, an empty string, nor
null — so values other than empty string / null do disqualify a field. -/
theorem missing_info_counterexample :
    get_missing_info ["square_footage"] [("square_footage", .vNum 0)]
        = ["square_footage"] ∧
    spec_missing ["square_footage"] [("square_footage", .vNum 0)] = [] ∧
    get_missing_info ["square_footage"] [("square_footage", .vNum 0)] ≠
      spec_missing ["square_footage"] [("square_footage", .vNum 0)] := by
  decide

/-- C3 (amended): the completeness checker returns exactly the required
fields that are absent or mapped to a Python-falsy value (empty string,
null, zero, false) — not only empty string / null — in the order of
`required_fields`; it is a sublist (hence ordered subset) of
`required_fields`, and empty iff every required field is present and
truthy.  It is a total function. -/
theorem missing_info_spec (req : List String) (info : Dict) :
    get_missing_info req info = req.filter (fun f => !fieldPresent info f) ∧
    (get_missing_info req info).Sublist req ∧
    (get_missing_info req info = [] ↔ ∀ f ∈ req, fieldPresent info f = true) := by
  refine ⟨get_missing_info_eq_filter req info, ?_, ?_⟩
  · rw [get_missing_info_eq_filter]
    exact List.filter_sublist _
  · rw [get_missing_info_eq_filter]
    simp

/-- The Route step never changes the facts dictionary. -/
theorem state_updater_extracted_info (s : GraphState) :
    (state_updater s).extracted_info = s.extracted_info := by
  unfold state_updater
  dsimp only
  split_ifs <;> simp [addToHistory]

/-- The Route step always clears `turn_input`. -/
theorem state_updater_user_input (s : GraphState) :
    (state_updater s).user_input = "" := by
  unfold state_updater
  dsimp only
  split_ifs <;> rfl

/-- With a blank pending input the Route step appends nothing. -/
theorem state_updater_history_of_empty (s : GraphState)
    (h : pyStrip s.user_input = "") :
    (state_updater s).conversation_history = s.conversation_history := by
  unfold state_updater
  rw [if_pos h]
  dsimp only
  split_ifs <;> rfl

/-- C9: the Route step is idempotent — running it twice with no new
`turn_input` in between leaves the facts unchanged and appends nothing to
the history on the second run. -/
theorem route_step_idempotent (s : GraphState) :
    (state_updater (state_updater s)).extracted_info
        = (state_updater s).extracted_info ∧
    (state_updater (state_updater s)).conversation_history
        = (state_updater s).conversation_history := by
  refine ⟨state_updater_extracted_info _, ?_⟩
  apply state_updater_history_of_empty
  rw [state_updater_user_input]
  decide

/-- C10: general extraction resolves multi-category matches by first-match
over the fixed insertion order — materials asphalt, metal, tile, slate and
timelines standard, expedited, emergency — so a text matching several
categories gets the earliest one; in particular "slate shingles" extracts
material asphalt and a text containing "standard" and "emergency" extracts
timeline standard. -/
theorem extraction_first_match_order :
    (∀ t : String, reSearchWord asphaltPat ((pyLower t).toList) = true →
      (extract_info_from_text t).material_type = some "asphalt") ∧
    (∀ t : String, reSearchWord asphaltPat ((pyLower t).toList) = false →
      reSearchWord metalPat ((pyLower t).toList) = true →
      (extract_info_from_text t).material_type = some "metal") ∧
    (∀ t : String, reSearchWord asphaltPat ((pyLower t).toList) = false →
      reSearchWord metalPat ((pyLower t).toList) = false →
      reSearchWord tilePat ((pyLower t).toList) = true →
      (extract_info_from_text t).material_type = some "tile") ∧
    (∀ t : String, reSearchWord asphaltPat ((pyLower t).toList) = false →
      reSearchWord metalPat ((pyLower t).toList) = false →
      reSearchWord tilePat ((pyLower t).toList) = false →
      reSearchWord slatePat ((pyLower t).toList) = true →
      (extract_info_from_text t).material_type = some "slate") ∧
    (∀ t : String, reSearchWord standardPat ((pyLower t).toList) = true →
      (extract_info_from_text t).timeline = some "standard") ∧
    (∀ t : String, reSearchWord standardPat ((pyLower t).toList) = false →
      reSearchWord expeditedPat ((pyLower t).toList) = true →
      (extract_info_from_text t).timeline = some "expedited") ∧
    (∀ t : String, reSearchWord standardPat ((pyLower t).toList) = false →
      reSearchWord expeditedPat ((pyLower t).toList) = false →
      reSearchWord emergencyPat ((pyLower t).toList) = true →
      (extract_info_from_text t).timeline = some "emergency") ∧
    (extract_info_from_text "slate shingles").material_type = some "asphalt" ∧
    (extract_info_from_text "the timeline can be standard or emergency").timeline
        = some "standard" := by
  refine ⟨?_, ?_, ?_, ?_, ?_, ?_, ?_, by decide, by decide⟩ <;>
    intro t <;> intros <;>
    simp_all [extract_info_from_text, pickCategory, materialCats, timelineCats,
      List.find?]

/-- Witness for C10: concrete later-category texts resolve to their first
matching category. -/
theorem extraction_first_match_order_witness :
    (extract_info_from_text "copper").material_type = some "metal" ∧
    (extract_info_from_text "made of clay").material_type = some "tile" ∧
    (extract_info_from_text "a rush job").timeline = some "expedited" := by
  refine ⟨extraction_first_match_order.2.1 "copper" (by decide) (by decide),
    extraction_first_match_order.2.2.1 "made of clay" (by decide) (by decide)
      (by decide),
    extraction_first_match_order.2.2.2.2.2.1 "a rush job" (by decide) (by decide)⟩

/-- C7 counterexample: the lookups lowercase but do not trim.  With the
default roofing tables, the material `" Metal "` lowercases to `" metal "`,
misses the table, and prices with the neutral multiplier (total 5250), while
`"metal"` prices with multiplier 1.5 (total 7750) — so a whitespace-padded
known key does not resolve to the same multiplier as the trimmed key. -/
theorem multiplier_lookup_not_trimmed :
    (calculate_estimate "roofing" roofingConfig (c7Facts " Metal ") []).map
        (·.total_estimate) = some 5250 ∧
    (calculate_estimate "roofing" roofingConfig (c7Facts "metal") []).map
        (·.total_estimate) = some 7750 ∧
    pyStrip (pyLower " Metal ") = pyLower "metal" ∧
    (5250 : ℚ) ≠ 7750 := by
  have h1 := calculate_estimate_spec "roofing" roofingConfig (c7Facts " Metal ") []
    1000 "midwest" " Metal " "standard" (by decide) (by decide) (by decide)
    (by decide) (by decide)
  have h2 := calculate_estimate_spec "roofing" roofingConfig (c7Facts "metal") []
    1000 "midwest" "metal" "standard" (by decide) (by decide) (by decide)
    (by decide) (by decide)
  have e1 : pyLower " Metal " = " metal " := by decide
  have e2 : pyLower "metal" = "metal" := by decide
  have e3 : pyLower "midwest" = "midwest" := by decide
  have e4 : pyLower "standard" = "standard" := by decide
  have g1 : tableGet roofingConfig.materials " metal " 1 = 1 := by decide
  have g2 : tableGet roofingConfig.materials "metal" 1 = 1.5 := by rfl
  have g3 : tableGet roofingConfig.regions "midwest" 1 = 1 := by decide
  have g4 : tableGet roofingConfig.timeline_multipliers "standard" 1 = 1 := by decide
  rw [h1, h2]
  simp only [Option.map_some']
  refine ⟨?_, ?_, by decide, by norm_num⟩
  · simp only [e1, e3, e4, calcTotal, g1, g3, g4]
    norm_num [roofingConfig]
  · simp only [e2, e3, e4, calcTotal, g2, g3, g4]
    norm_num [roofingConfig]

/-- C7 (amended): pricing never fails on an unknown material, region, or
timeline value — the multiplier defaults to 1.0 (neutral) — but the table
lookups only lowercase the value; they do not trim surrounding whitespace
(see the counterexample), so a padded key is treated as unknown. -/
theorem unknown_multiplier_defaults (stype : String) (cfg : ServiceConfig)
    (info : Dict) (irefs : List String) (area : ℚ) (loc mat tl : String)
    (hreq : cfg.required_info.all (fieldPresent info) = true)
    (ha : dget info "square_footage" = some (.vNum area))
    (hl : dget info "location" = some (.vStr loc))
    (hm : dget info "material_type" = some (.vStr mat))
    (ht : dget info "timeline" = some (.vStr tl))
    (hmf : cfg.materials.find? (fun p => p.1 == pyLower mat) = none)
    (hrf : cfg.regions.find? (fun p => p.1 == pyLower loc) = none)
    (htf : cfg.timeline_multipliers.find? (fun p => p.1 == pyLower tl) = none) :
    ∃ r, calculate_estimate stype cfg info irefs = some r ∧
      r.material_cost = 0 ∧ r.region_adjustment = 0 ∧ r.timeline_adjustment = 0 ∧
      r.total_estimate = cfg.base_rate_per_sqft * area + cfg.permit_fee := by
  refine ⟨_, calculate_estimate_spec stype cfg info irefs area loc mat tl
    hreq ha hl hm ht, ?_, ?_, ?_, ?_⟩ <;>
    · simp only [calcTotal, tableGet, hmf, hrf, htf, Option.map_none',
        Option.getD_none]
      ring

/-- Witness for C7: fully unknown material/region/timeline values still
price, with all three adjustments neutral. -/
theorem unknown_multiplier_defaults_witness :
    (calculate_estimate "roofing" scenario1Profile
        [("square_footage", .vNum 2000), ("location", .vStr "Atlantis"),
         ("material_type", .vStr "unobtanium"), ("timeline", .vStr "whenever")]
        []).map (·.total_estimate) = some 10250 := by
  obtain ⟨r, hr, k1, k2, k3, k4⟩ := unknown_multiplier_defaults "roofing"
    scenario1Profile
    [("square_footage", .vNum 2000), ("location", .vStr "Atlantis"),
     ("material_type", .vStr "unobtanium"), ("timeline", .vStr "whenever")]
    [] 2000 "Atlantis" "unobtanium" "whenever" (by decide) (by decide)
    (by decide) (by decide) (by decide) (by decide) (by decide) (by decide)
  rw [hr]
  simp only [Option.map_some', k4]
  norm_num [scenario1Profile]

/-- C2: the pricing function itself is deterministic, but the estimate
dictionary the state machine stores is not — `EstimateResult.dict()`
multiplies every cost field below 1000 by a fresh `random.uniform(10, 20)`
draw.  On the Scenario-1 state (permit fee 250 < 1000), two draw streams
that both lie inside `[10, 20]` store different `permit_fee` values
(2500 vs 2750), so identical inputs do not yield bit-identical stored
fields.  This contradicts the spec, which declares the §4.3 formula
canonical and flags the random rescaling as demo logic to be discarded. -/
theorem estimate_storage_randomized :
    (∀ i, 10 ≤ uniformLow i ∧ uniformLow i ≤ 20 ∧
      10 ≤ uniformMid i ∧ uniformMid i ≤ 20) ∧
    (estimator_node uniformLow c2State).final_estimate.map (·.permit_fee)
        = some 2500 ∧
    (estimator_node uniformMid c2State).final_estimate.map (·.permit_fee)
        = some 2750 ∧
    (2500 : ℚ) ≠ 2750 := by
  have hsvc : getServiceType scenario1Facts = "roofing" := by decide
  have hspec := calculate_estimate_spec "roofing" scenario1Profile scenario1Facts []
    2000 "northeast" "asphalt" "standard" (by decide) (by decide) (by decide)
    (by decide) (by decide)
  refine ⟨fun i => by norm_num [uniformLow, uniformMid], ?_, ?_, by norm_num⟩ <;>
    · simp only [estimator_node, c2State, hsvc, hspec]
      simp only [estimateDict, demoScale, Option.map_some', uniformLow, uniformMid]
      norm_num [scenario1Profile]

/-- C5 counterexample: a pending message containing the word "different"
("I would like a different color") contains a keyword the claim lists, yet
the Route step keeps the stored estimate and routes to the question
generator — the source keyword is the longer phrase "different materials". -/
theorem recompute_keyword_different_cex :
    pyIn "different" (pyLower cexState5.user_input) = true ∧
    (state_updater cexState5).next = some "question_generator" ∧
    (state_updater cexState5).final_estimate = some scenario1Result := by
  decide

/-- C5 (amended): with no missing fields, an existing estimate, and a
non-blank pending user message, the Route step invalidates the estimate and
transitions to the estimator exactly when the message contains one of the
source keywords "new estimate", "recalculate", "update estimate",
"different materials", "change" (the word "different" alone does not
qualify); otherwise it keeps the estimate untouched and routes to the
question generator. -/
theorem recompute_keyword_routing (s : GraphState) (e : EstimateResult)
    (hm : get_missing_info s.required_info s.extracted_info = [])
    (he : s.final_estimate = some e)
    (hu : pyStrip s.user_input ≠ "") :
    if estimateKeywords.any (fun k => pyIn k (pyLower s.user_input)) = true then
      (state_updater s).final_estimate = none ∧
      (state_updater s).next = some "estimator"
    else
      (state_updater s).final_estimate = some e ∧
      (state_updater s).next = some "question_generator" := by
  have hl : lastContent (s.conversation_history ++ [("user", s.user_input)])
      = s.user_input := by
    simp [lastContent]
  by_cases hk : estimateKeywords.any (fun k => pyIn k (pyLower s.user_input)) = true
  · rw [if_pos hk]
    simp [state_updater, if_neg hu, addToHistory, hm, he, hl, hk]
  · rw [if_neg hk]
    simp only [Bool.not_eq_true] at hk
    simp [state_updater, if_neg hu, addToHistory, hm, he, hl, hk]

/-- Witness for C5: the Scenario-4 message "recalculate with metal roofing"
invalidates the stored estimate and routes to the estimator. -/
theorem recompute_keyword_routing_witness :
    (state_updater recomputeState).final_estimate = none ∧
    (state_updater recomputeState).next = some "estimator" := by
  have h := recompute_keyword_routing recomputeState scenario1Result
    (by decide) rfl (by decide)
  rwa [if_pos (by decide)] at h

/-- C8 counterexample: classification is not purely by keyword containment —
greetings are matched by exact equality of the whole lowered message, so
"hello there", which contains the greeting keyword "hello", falls through to
the generic clarification response instead of the greeting response. -/
theorem greeting_containment_cex :
    pyIn "hello" (pyLower "hello there") = true ∧
    generate_next_question [] [] true "hello there" = followupDefaultResponse ∧
    followupDefaultResponse ≠ greetingResponse := by
  decide

/-- C8 (amended): with no missing fields and an existing estimate, the
Question Selector classifies the last user text through the ordered
categories greeting, gratitude, timeline, material, warranty, other — the
greeting category by exact equality of the lowered message with
"hi"/"hello"/"hey", the remaining categories by keyword containment — and
an unmatched message gets the generic clarification response.  For the
Scenario-3 state ("Thanks!") the Route step keeps the estimate and routes to
the question generator rather than the estimator. -/
theorem followup_classification (d : Dict) (msg : String) :
    (pyLower msg = "hi" ∨ pyLower msg = "hello" ∨ pyLower msg = "hey" →
      generate_next_question [] d true msg = greetingResponse) ∧
    (pyIn "thank" (pyLower msg) = true →
      generate_next_question [] d true msg = gratitudeResponse) ∧
    (pyIn "thank" (pyLower msg) = false →
      ["how long", "timeline", "when", "schedule"].any
          (fun q => pyIn q (pyLower msg)) = true →
      generate_next_question [] d true msg = timelineResponse) ∧
    (pyIn "thank" (pyLower msg) = false →
      ["how long", "timeline", "when", "schedule"].any
          (fun q => pyIn q (pyLower msg)) = false →
      ["material", "quality", "brand"].any (fun q => pyIn q (pyLower msg)) = true →
      generate_next_question [] d true msg = materialResponse) ∧
    (pyIn "thank" (pyLower msg) = false →
      ["how long", "timeline", "when", "schedule"].any
          (fun q => pyIn q (pyLower msg)) = false →
      ["material", "quality", "brand"].any (fun q => pyIn q (pyLower msg)) = false →
      ["warranty", "guarantee"].any (fun q => pyIn q (pyLower msg)) = true →
      generate_next_question [] d true msg = warrantyResponse) ∧
    (¬(pyLower msg = "hi" ∨ pyLower msg = "hello" ∨ pyLower msg = "hey") →
      pyIn "thank" (pyLower msg) = false →
      ["how long", "timeline", "when", "schedule"].any
          (fun q => pyIn q (pyLower msg)) = false →
      ["material", "quality", "brand"].any (fun q => pyIn q (pyLower msg)) = false →
      ["warranty", "guarantee"].any (fun q => pyIn q (pyLower msg)) = false →
      generate_next_question [] d true msg = followupDefaultResponse) ∧
    ((state_updater thanksState).final_estimate = some scenario1Result ∧
     (state_updater thanksState).next = some "question_generator") := by
  refine ⟨?_, ?_, ?_, ?_, ?_, ?_, by decide⟩
  · rintro (h | h | h) <;> simp [generate_next_question, h]
  · intro ht
    have g1 : pyLower msg ≠ "hi" := by
      intro h; rw [h] at ht; exact absurd ht (by decide)
    have g2 : pyLower msg ≠ "hello" := by
      intro h; rw [h] at ht; exact absurd ht (by decide)
    have g3 : pyLower msg ≠ "hey" := by
      intro h; rw [h] at ht; exact absurd ht (by decide)
    simp [generate_next_question, ht, g1, g2, g3]
  · intro ht htl
    have g1 : pyLower msg ≠ "hi" := by
      intro h; rw [h] at htl; exact absurd htl (by decide)
    have g2 : pyLower msg ≠ "hello" := by
      intro h; rw [h] at htl; exact absurd htl (by decide)
    have g3 : pyLower msg ≠ "hey" := by
      intro h; rw [h] at htl; exact absurd htl (by decide)
    simp [generate_next_question, ht, htl, g1, g2, g3]
  · intro ht htl hma
    have g1 : pyLower msg ≠ "hi" := by
      intro h; rw [h] at hma; exact absurd hma (by decide)
    have g2 : pyLower msg ≠ "hello" := by
      intro h; rw [h] at hma; exact absurd hma (by decide)
    have g3 : pyLower msg ≠ "hey" := by
      intro h; rw [h] at hma; exact absurd hma (by decide)
    simp [generate_next_question, ht, htl, hma, g1, g2, g3]
  · intro ht htl hma hw
    have g1 : pyLower msg ≠ "hi" := by
      intro h; rw [h] at hw; exact absurd hw (by decide)
    have g2 : pyLower msg ≠ "hello" := by
      intro h; rw [h] at hw; exact absurd hw (by decide)
    have g3 : pyLower msg ≠ "hey" := by
      intro h; rw [h] at hw; exact absurd hw (by decide)
    simp [generate_next_question, ht, htl, hma, hw, g1, g2, g3]
  · intro hg ht htl hma hw
    simp only [not_or] at hg
    obtain ⟨g1, g2, g3⟩ := hg
    simp [generate_next_question, ht, htl, hma, hw, g1, g2, g3]

/-- Witness for C8: "Thanks!" (and its lowering containing "thank") gets the
gratitude response, and an exact "Hi" gets the greeting response. -/
theorem followup_classification_witness :
    generate_next_question [] [] true "Thanks!" = gratitudeResponse ∧
    generate_next_question [] [] true "Hi" = greetingResponse := by
  exact ⟨(followup_classification [] "Thanks!").2.1 (by decide),
    (followup_classification [] "Hi").1 (Or.inl (by decide))⟩

/-- Updating a key makes it readable. -/
theorem dget_dset_self (d : Dict) (k : String) (v : Value) :
    dget (dset d k v) k = some v := by
  induction d with
  | nil => simp [dget, dset, List.find?]
  | cons p rest ih =>
    obtain ⟨k1, v1⟩ := p
    cases h : (k1 == k) <;> simp [dset, h, dget, List.find?] <;>
      simpa [dget] using ih

/-- Updating one key leaves the others unchanged. -/
theorem dget_dset_ne (d : Dict) (k k' : String) (v : Value) (h : k' ≠ k) :
    dget (dset d k v) k' = dget d k' := by
  induction d with
  | nil =>
    have hne : (k == k') = false := by simpa using fun e => h e.symm
    simp [dget, dset, List.find?, hne]
  | cons p rest ih =>
    obtain ⟨k1, v1⟩ := p
    cases hk : (k1 == k)
    · cases hk' : (k1 == k') <;> simp [dset, hk, dget, List.find?, hk'] <;>
        simpa [dget] using ih
    · have : k1 = k := by simpa using hk
      subst this
      simp [dset, dget, List.find?, show (k1 == k') = false by
        simpa using fun e => h e.symm]

/-- Committed non-empty tier-2 string values are readable back. -/
theorem dget_commitStr_self (d : Dict) (k : String) (ov : Option String) :
    dget (commitStrField d k ov) k =
      match ov with
      | some v => if v.isEmpty then dget d k else some (.vStr v)
      | none => dget d k := by
  cases ov with
  | none => rfl
  | some v =>
    by_cases h : v.isEmpty <;> simp [commitStrField, h, dget_dset_self]

/-- Committing one string field does not touch other keys. -/
theorem dget_commitStr_ne (d : Dict) (k : String) (ov : Option String)
    (k' : String) (h : k' ≠ k) :
    dget (commitStrField d k ov) k' = dget d k' := by
  cases ov with
  | none => rfl
  | some v =>
    by_cases hv : v.isEmpty <;> simp [commitStrField, hv, dget_dset_ne _ _ _ _ h]

/-- Committed non-zero numeric values are readable back. -/
theorem dget_commitNum_self (d : Dict) (k : String) (ov : Option ℚ) :
    dget (commitNumField d k ov) k =
      match ov with
      | some q => if q = 0 then dget d k else some (.vNum q)
      | none => dget d k := by
  cases ov with
  | none => rfl
  | some q =>
    by_cases h : q = 0 <;> simp [commitNumField, h, dget_dset_self]

/-- Committing the numeric field does not touch other keys. -/
theorem dget_commitNum_ne (d : Dict) (k : String) (ov : Option ℚ)
    (k' : String) (h : k' ≠ k) :
    dget (commitNumField d k ov) k' = dget d k' := by
  cases ov with
  | none => rfl
  | some q =>
    by_cases hq : q = 0 <;> simp [commitNumField, hq, dget_dset_ne _ _ _ _ h]

/-- Reading the timeline after the tier-2 commit loop. -/
theorem dget_commitExtract_timeline (d : Dict) (ex : ExtractedInfo) :
    dget (commitExtract d ex) "timeline" =
      match ex.timeline with
      | some v => if v.isEmpty then dget d "timeline" else some (.vStr v)
      | none => dget d "timeline" := by
  unfold commitExtract
  rw [dget_commitStr_self]
  rw [dget_commitStr_ne _ _ _ _ (by decide), dget_commitStr_ne _ _ _ _ (by decide),
    dget_commitNum_ne _ _ _ _ (by decide), dget_commitStr_ne _ _ _ _ (by decide)]

/-- Reading the material after the tier-2 commit loop. -/
theorem dget_commitExtract_material (d : Dict) (ex : ExtractedInfo) :
    dget (commitExtract d ex) "material_type" =
      match ex.material_type with
      | some v => if v.isEmpty then dget d "material_type" else some (.vStr v)
      | none => dget d "material_type" := by
  unfold commitExtract
  rw [dget_commitStr_ne _ _ _ _ (by decide), dget_commitStr_self,
    dget_commitStr_ne _ _ _ _ (by decide), dget_commitNum_ne _ _ _ _ (by decide),
    dget_commitStr_ne _ _ _ _ (by decide)]

/-- Reading the location after the tier-2 commit loop. -/
theorem dget_commitExtract_location (d : Dict) (ex : ExtractedInfo) :
    dget (commitExtract d ex) "location" =
      match ex.location with
      | some v => if v.isEmpty then dget d "location" else some (.vStr v)
      | none => dget d "location" := by
  unfold commitExtract
  rw [dget_commitStr_ne _ _ _ _ (by decide), dget_commitStr_ne _ _ _ _ (by decide),
    dget_commitStr_self, dget_commitNum_ne _ _ _ _ (by decide),
    dget_commitStr_ne _ _ _ _ (by decide)]

/-- Reading the service type after the tier-2 commit loop. -/
theorem dget_commitExtract_service (d : Dict) (ex : ExtractedInfo) :
    dget (commitExtract d ex) "service_type" =
      match ex.service_type with
      | some v => if v.isEmpty then dget d "service_type" else some (.vStr v)
      | none => dget d "service_type" := by
  unfold commitExtract
  rw [dget_commitStr_ne _ _ _ _ (by decide), dget_commitStr_ne _ _ _ _ (by decide),
    dget_commitStr_ne _ _ _ _ (by decide), dget_commitNum_ne _ _ _ _ (by decide),
    dget_commitStr_self]

/-- Reading the square footage after the tier-2 commit loop. -/
theorem dget_commitExtract_sqft (d : Dict) (ex : ExtractedInfo) :
    dget (commitExtract d ex) "square_footage" =
      match ex.square_footage with
      | some q => if q = 0 then dget d "square_footage" else some (.vNum q)
      | none => dget d "square_footage" := by
  unfold commitExtract
  rw [dget_commitStr_ne _ _ _ _ (by decide), dget_commitStr_ne _ _ _ _ (by decide),
    dget_commitStr_ne _ _ _ _ (by decide), dget_commitNum_self,
    dget_commitStr_ne _ _ _ _ (by decide)]

/-- A value is "non-empty" in the sense of the merge policy: neither the
empty string nor null. -/
abbrev nonEmptyVal (w : Value) : Prop := w ≠ .vStr "" ∧ w ≠ .vNone

/-- Every value tier-1 direct extraction can produce is non-empty. -/
theorem tierOneValue_nonEmpty (f si : String) (w : Value)
    (h : tierOneValue f si = some w) : nonEmptyVal w := by
  unfold tierOneValue at h
  split_ifs at h
  · -- location
    unfold tierOneLocation at h
    cases hf : List.find? (fun r => pyIn r si)
        ["northeast", "midwest", "south", "west", "north east", "mid west"] with
    | some r =>
      rw [hf] at h
      have hm := List.mem_of_find?_eq_some hf
      simp only [Option.map_some', Option.some.injEq] at h
      subst h
      simp at hm
      rcases hm with rfl | rfl | rfl | rfl | rfl | rfl <;> decide
    | none =>
      rw [hf] at h
      split_ifs at h <;>
        first
          | (simp only [Option.map_some', Option.some.injEq] at h; subst h; decide)
          | simp at h
  · -- material
    unfold tierOneMaterial at h
    cases hf : List.find? (fun m => pyIn m si) ["asphalt", "metal", "tile", "slate"] with
    | some r =>
      rw [hf] at h
      have hm := List.mem_of_find?_eq_some hf
      simp only [Option.map_some', Option.some.injEq] at h
      subst h
      simp at hm
      rcases hm with rfl | rfl | rfl | rfl <;> decide
    | none =>
      rw [hf] at h
      split_ifs at h <;>
        first
          | (simp only [Option.map_some', Option.some.injEq] at h; subst h; decide)
          | simp at h
  · -- timeline
    unfold tierOneTimeline at h
    split_ifs at h <;>
      first
        | (simp only [Option.map_some', Option.some.injEq] at h; subst h; decide)
        | simp at h
  · -- square footage: always a number
    cases hq : tierOneSquareFootage si with
    | some q =>
      rw [hq] at h
      simp only [Option.map_some', Option.some.injEq] at h
      subst h
      exact ⟨by simp, by simp⟩
    | none => rw [hq] at h; cases h

/-- Presence is preserved by a dictionary update, and the value is either
untouched or becomes the written one. -/
theorem dget_dset_preserve (d : Dict) (k2 : String) (u : Value) (k : String)
    (v : Value) (h : dget d k = some v) :
    ∃ w, dget (dset d k2 u) k = some w ∧ (w = v ∨ w = u) := by
  by_cases hk : k = k2
  · subst hk
    exact ⟨u, dget_dset_self _ _ _, Or.inr rfl⟩
  · exact ⟨v, by rw [dget_dset_ne _ _ _ _ hk]; exact h, Or.inl rfl⟩

/-- A present fact survives a tier-2 string commit, either untouched or
replaced by a non-empty string. -/
theorem commitStr_preserve (d : Dict) (k2 : String) (ov : Option String)
    (k : String) (v : Value)
    (h : ∃ w, dget d k = some w ∧ (w = v ∨ nonEmptyVal w)) :
    ∃ w, dget (commitStrField d k2 ov) k = some w ∧ (w = v ∨ nonEmptyVal w) := by
  obtain ⟨w, hw, hv⟩ := h
  cases ov with
  | none => exact ⟨w, hw, hv⟩
  | some sv =>
    by_cases hs : sv.isEmpty
    · exact ⟨w, by simpa [commitStrField, hs] using hw, hv⟩
    · obtain ⟨w2, hw2, hv2⟩ := dget_dset_preserve d k2 (.vStr sv) k w hw
      refine ⟨w2, by simpa [commitStrField, hs] using hw2, ?_⟩
      rcases hv2 with rfl | rfl
      · exact hv
      · have hsv : sv ≠ "" := fun e => hs (by rw [e]; decide)
        exact Or.inr ⟨by simp [hsv], by simp⟩

/-- A present fact survives the tier-2 numeric commit, either untouched or
replaced by a (non-empty) number. -/
theorem commitNum_preserve (d : Dict) (k2 : String) (ov : Option ℚ)
    (k : String) (v : Value)
    (h : ∃ w, dget d k = some w ∧ (w = v ∨ nonEmptyVal w)) :
    ∃ w, dget (commitNumField d k2 ov) k = some w ∧ (w = v ∨ nonEmptyVal w) := by
  obtain ⟨w, hw, hv⟩ := h
  cases ov with
  | none => exact ⟨w, hw, hv⟩
  | some q =>
    by_cases hq : q = 0
    · exact ⟨w, by simpa [commitNumField, hq] using hw, hv⟩
    · obtain ⟨w2, hw2, hv2⟩ := dget_dset_preserve d k2 (.vNum q) k w hw
      refine ⟨w2, by simpa [commitNumField, hq] using hw2, ?_⟩
      rcases hv2 with rfl | rfl
      · exact hv
      · exact Or.inr ⟨by simp, by simp⟩

/-- A present fact survives tier-1 targeted extraction, either untouched or
replaced by a non-empty tier-1 value. -/
theorem tier1Dict_preserve (s : GraphState) (k : String) (v : Value)
    (h : dget s.extracted_info k = some v) :
    ∃ w, dget (tier1Dict s) k = some w ∧ (w = v ∨ nonEmptyVal w) := by
  unfold tier1Dict
  cases hf : tierOneField (lastAssistantContent s.conversation_history) with
  | none => exact ⟨v, h, Or.inl rfl⟩
  | some f =>
    by_cases hn : (pySplitWS (pyStrip s.user_input)).length ≤ 3
    · simp only [hn, if_true]
      cases hv : tierOneValue f (pyLower (pyStrip s.user_input)) with
      | none => exact ⟨v, h, Or.inl rfl⟩
      | some u =>
        obtain ⟨w, hw, hoc⟩ := dget_dset_preserve s.extracted_info f u k v h
        refine ⟨w, hw, ?_⟩
        rcases hoc with rfl | rfl
        · exact Or.inl rfl
        · exact Or.inr (tierOneValue_nonEmpty _ _ _ hv)
    · simp only [hn, if_false]
      exact ⟨v, h, Or.inl rfl⟩

/-- C6 counterexample: answering the timeline question with "week" makes
tier-1 targeted extraction produce "emergency" (and write it into the
facts), yet the committed fact is "standard" — the tier-2 general extraction
runs afterwards over context plus input, matches "standard" inside the
echoed question, and overwrites the tier-1 value.  Tier-1 does not take
precedence. -/
theorem tier2_overwrites_tier1_cex :
    tierOneField (lastAssistantContent cexState6.conversation_history)
        = some "timeline" ∧
    tierOneValue "timeline" (pyLower (pyStrip cexState6.user_input))
        = some (.vStr "emergency") ∧
    dget (tier1Dict cexState6) "timeline" = some (.vStr "emergency") ∧
    dget (information_extractor cexState6).extracted_info "timeline"
        = some (.vStr "standard") := by
  decide

/-- C6 (amended): in the extraction step the tier-1 targeted value is
written into the facts first, but the tier-2 general extraction is committed
afterwards and takes precedence: a field tier-2 extracts (with a truthy
value) ends up with the tier-2 value, a field tier-2 leaves unset keeps the
tier-1 dictionary value (the tier-1 value where tier-1 matched, otherwise
the prior fact), only non-empty tier-2 values are committed, and an existing
fact is never overwritten with an empty (empty-string or null) value. -/
theorem extractor_merge_policy (s : GraphState)
    (hu : pyStrip s.user_input ≠ "") :
    (∀ f v, tierOneField (lastAssistantContent s.conversation_history) = some f →
      (pySplitWS (pyStrip s.user_input)).length ≤ 3 →
      tierOneValue f (pyLower (pyStrip s.user_input)) = some v →
      dget (tier1Dict s) f = some v) ∧
    (∀ v, (extract_info_from_text
        (buildFullText s.conversation_history s.user_input)).timeline = some v →
      v.isEmpty = false →
      dget (information_extractor s).extracted_info "timeline"
          = some (.vStr v)) ∧
    ((extract_info_from_text
        (buildFullText s.conversation_history s.user_input)).timeline = none →
      dget (information_extractor s).extracted_info "timeline"
          = dget (tier1Dict s) "timeline") ∧
    (∀ v, (extract_info_from_text
        (buildFullText s.conversation_history s.user_input)).material_type = some v →
      v.isEmpty = false →
      dget (information_extractor s).extracted_info "material_type"
          = some (.vStr v)) ∧
    ((extract_info_from_text
        (buildFullText s.conversation_history s.user_input)).material_type = none →
      dget (information_extractor s).extracted_info "material_type"
          = dget (tier1Dict s) "material_type") ∧
    (∀ v, (extract_info_from_text
        (buildFullText s.conversation_history s.user_input)).location = some v →
      v.isEmpty = false →
      dget (information_extractor s).extracted_info "location"
          = some (.vStr v)) ∧
    ((extract_info_from_text
        (buildFullText s.conversation_history s.user_input)).location = none →
      dget (information_extractor s).extracted_info "location"
          = dget (tier1Dict s) "location") ∧
    (∀ v, (extract_info_from_text
        (buildFullText s.conversation_history s.user_input)).service_type = some v →
      v.isEmpty = false →
      dget (information_extractor s).extracted_info "service_type"
          = some (.vStr v)) ∧
    ((extract_info_from_text
        (buildFullText s.conversation_history s.user_input)).service_type = none →
      dget (information_extractor s).extracted_info "service_type"
          = dget (tier1Dict s) "service_type") ∧
    (∀ q, (extract_info_from_text
        (buildFullText s.conversation_history s.user_input)).square_footage = some q →
      q ≠ 0 →
      dget (information_extractor s).extracted_info "square_footage"
          = some (.vNum q)) ∧
    ((extract_info_from_text
        (buildFullText s.conversation_history s.user_input)).square_footage = none →
      dget (information_extractor s).extracted_info "square_footage"
          = dget (tier1Dict s) "square_footage") ∧
    (∀ k v, dget s.extracted_info k = some v →
      ∃ w, dget (information_extractor s).extracted_info k = some w ∧
        (w = v ∨ nonEmptyVal w)) := by
  have hr : (information_extractor s).extracted_info =
      commitExtract (tier1Dict s)
        (extract_info_from_text (buildFullText s.conversation_history s.user_input)) := by
    simp [information_extractor, hu]
  refine ⟨?_, ?_, ?_, ?_, ?_, ?_, ?_, ?_, ?_, ?_, ?_, ?_⟩
  · intro f v h1 h2 h3
    simp [tier1Dict, h1, h2, h3, dget_dset_self]
  · intro v hv hne
    rw [hr, dget_commitExtract_timeline, hv]
    simp [hne]
  · intro hv
    rw [hr, dget_commitExtract_timeline, hv]
  · intro v hv hne
    rw [hr, dget_commitExtract_material, hv]
    simp [hne]
  · intro hv
    rw [hr, dget_commitExtract_material, hv]
  · intro v hv hne
    rw [hr, dget_commitExtract_location, hv]
    simp [hne]
  · intro hv
    rw [hr, dget_commitExtract_location, hv]
  · intro v hv hne
    rw [hr, dget_commitExtract_service, hv]
    simp [hne]
  · intro hv
    rw [hr, dget_commitExtract_service, hv]
  · intro q hq hne
    rw [hr, dget_commitExtract_sqft, hq]
    simp [hne]
  · intro hq
    rw [hr, dget_commitExtract_sqft, hq]
  · intro k v h
    rw [hr]
    unfold commitExtract
    exact commitStr_preserve _ _ _ _ _ (commitStr_preserve _ _ _ _ _
      (commitStr_preserve _ _ _ _ _ (commitNum_preserve _ _ _ _ _
        (commitStr_preserve _ _ _ _ _ (tier1Dict_preserve s k v h)))))

/-- Witness for C6: on the "week" state, tier-2 has timeline "standard" and
the committed fact is "standard"; a field tier-2 leaves unset (square
footage) keeps the tier-1 dictionary value; an existing fact survives. -/
theorem extractor_merge_policy_witness :
    dget (information_extractor cexState6).extracted_info "timeline"
        = some (.vStr "standard") ∧
    dget (information_extractor cexState6).extracted_info "square_footage"
        = dget (tier1Dict cexState6) "square_footage" := by
  have h := extractor_merge_policy cexState6 (by decide)
  exact ⟨h.2.1 "standard" (by decide) (by decide),
    h.2.2.2.2.2.2.2.2.2.2.1 (by decide)⟩

/-- `start_node` appends the welcome message (then a question) to the
history, whatever the state. -/
theorem start_node_history (s : GraphState) :
    ∃ rest, (start_node s).conversation_history =
      s.conversation_history ++ (("assistant", welcomeMessage) :: rest) := by
  refine ⟨[("assistant",
    generate_next_question roofingConfig.required_info s.extracted_info false "")], ?_⟩
  simp [start_node, addToHistory, configServices, List.find?]

/-- `input_processor` never touches the history. -/
theorem input_processor_history (s : GraphState) :
    (input_processor s).conversation_history = s.conversation_history := by
  unfold input_processor
  split_ifs <;> rfl

/-- `image_handler_node` only appends to the history. -/
theorem image_handler_history (s : GraphState) :
    ∃ rest, (image_handler_node s).conversation_history
      = s.conversation_history ++ rest := by
  unfold image_handler_node
  dsimp only
  refine ⟨[("assistant",
    "I\x27ve received your image. This will help with the estimation process.")], ?_⟩
  split_ifs <;> simp [addToHistory]

/-- `information_extractor` never touches the history. -/
theorem information_extractor_history (s : GraphState) :
    (information_extractor s).conversation_history = s.conversation_history := by
  unfold information_extractor
  split_ifs <;> rfl

/-- `state_updater` only appends to the history. -/
theorem state_updater_history (s : GraphState) :
    ∃ rest, (state_updater s).conversation_history
      = s.conversation_history ++ rest := by
  unfold state_updater
  dsimp only
  by_cases h : pyStrip s.user_input = ""
  · rw [if_pos h]
    refine ⟨[], ?_⟩
    split_ifs <;> simp
  · rw [if_neg h]
    refine ⟨[("user", s.user_input)], ?_⟩
    split_ifs <;> simp [addToHistory]

/-- `question_generator` only appends to the history. -/
theorem question_generator_history (s : GraphState) :
    ∃ rest, (question_generator s).conversation_history
      = s.conversation_history ++ rest := by
  refine ⟨[("assistant", generate_next_question
    (get_missing_info s.required_info s.extracted_info) s.extracted_info
    s.final_estimate.isSome (lastUserContent s.conversation_history))], ?_⟩
  simp [question_generator, addToHistory]

/-- `estimator_node` never touches the history. -/
theorem estimator_node_history (draws : ℕ → ℚ) (s : GraphState) :
    (estimator_node draws s).conversation_history = s.conversation_history := by
  unfold estimator_node
  split <;> rfl

/-- `response_generator` only appends to the history. -/
theorem response_generator_history (draws : ℕ → ℚ) (s : GraphState) :
    ∃ rest, (response_generator draws s).conversation_history
      = s.conversation_history ++ rest := by
  unfold response_generator
  split
  · rename_i r heq
    exact ⟨[("assistant", format_estimate_for_display r),
      ("assistant", closingMessage)], by simp [addToHistory]⟩
  · split_ifs
    · split
      · rename_i r _
        exact ⟨[("assistant", format_estimate_for_display (estimateDict r draws)),
          ("assistant", closingMessage)], by simp [addToHistory]⟩
      · exact ⟨[("assistant", errorEstimateMessage)], by simp [addToHistory]⟩
    · exact ⟨[], by simp⟩

/-- The post-`start` tail of a turn only appends to the history. -/
theorem turn_tail_history (u : GraphState) (draws : ℕ → ℚ) :
    ∃ rest,
      (let s2 := input_processor u
       let s3 :=
         if s2.next = some "image_handler" then
           information_extractor (image_handler_node s2)
         else information_extractor s2
       let s4 := state_updater s3
       if s4.next = some "estimator" then
         response_generator draws (estimator_node draws s4)
       else question_generator s4).conversation_history
      = u.conversation_history ++ rest := by
  dsimp only
  have h2 := input_processor_history u
  by_cases hb : (input_processor u).next = some "image_handler" <;>
    [rw [if_pos hb]; rw [if_neg hb]]
  · obtain ⟨ri, hi⟩ := image_handler_history (input_processor u)
    have he := information_extractor_history (image_handler_node (input_processor u))
    obtain ⟨ru, hu⟩ :=
      state_updater_history (information_extractor (image_handler_node (input_processor u)))
    by_cases hs : (state_updater (information_extractor
        (image_handler_node (input_processor u)))).next = some "estimator" <;>
      [rw [if_pos hs]; rw [if_neg hs]]
    · have hee := estimator_node_history draws
        (state_updater (information_extractor (image_handler_node (input_processor u))))
      obtain ⟨rr, hrr⟩ := response_generator_history draws (estimator_node draws
        (state_updater (information_extractor (image_handler_node (input_processor u)))))
      exact ⟨ri ++ ru ++ rr, by rw [hrr, hee, hu, he, hi, h2]; simp⟩
    · obtain ⟨rq, hq⟩ := question_generator_history
        (state_updater (information_extractor (image_handler_node (input_processor u))))
      exact ⟨ri ++ ru ++ rq, by rw [hq, hu, he, hi, h2]; simp⟩
  · have he := information_extractor_history (input_processor u)
    obtain ⟨ru, hu⟩ := state_updater_history (information_extractor (input_processor u))
    by_cases hs : (state_updater (information_extractor (input_processor u))).next
        = some "estimator" <;> [rw [if_pos hs]; rw [if_neg hs]]
    · have hee := estimator_node_history draws
        (state_updater (information_extractor (input_processor u)))
      obtain ⟨rr, hrr⟩ := response_generator_history draws (estimator_node draws
        (state_updater (information_extractor (input_processor u))))
      exact ⟨ru ++ rr, by rw [hrr, hee, hu, he, h2]; simp⟩
    · obtain ⟨rq, hq⟩ := question_generator_history
        (state_updater (information_extractor (input_processor u)))
      exact ⟨ru ++ rq, by rw [hq, hu, he, h2]; simp⟩

/-- Every turn appends the welcome message (and more) to the history. -/
theorem runTurn_history (s : GraphState) (msg : String) (draws : ℕ → ℚ) :
    ∃ rest, (runTurn s msg draws).conversation_history =
      s.conversation_history ++ (("assistant", welcomeMessage) :: rest) := by
  obtain ⟨r1, h1⟩ := start_node_history { s with user_input := msg }
  obtain ⟨rt, ht⟩ := turn_tail_history (start_node { s with user_input := msg }) draws
  refine ⟨r1 ++ rt, ?_⟩
  show (let s2 := input_processor (start_node { s with user_input := msg })
        let s3 :=
          if s2.next = some "image_handler" then
            information_extractor (image_handler_node s2)
          else information_extractor s2
        let s4 := state_updater s3
        if s4.next = some "estimator" then
          response_generator draws (estimator_node draws s4)
        else question_generator s4).conversation_history = _
  rw [ht, h1]
  simp

/-- C4: the compiled graph enters at `start` on every invocation, so every
`handle_message` turn appends the welcome message to the history again —
the count of welcome messages strictly grows each turn instead of staying at
the single copy emitted at session creation. -/
theorem welcome_repeated_every_turn (s : GraphState) (msg : String) (draws : ℕ → ℚ) :
    s.conversation_history.countP (fun m => m.2 == welcomeMessage) + 1 ≤
    (runTurn s msg draws).conversation_history.countP
      (fun m => m.2 == welcomeMessage) := by
  obtain ⟨rest, h⟩ := runTurn_history s msg draws
  rw [h, List.countP_append, List.countP_cons]
  simp
  try omega

end Estimation
